import Mathlib

/-!
Verification of the CLIP embedding HTTP service (`services/clip_service.py`).

The service is embedded shallowly.  The external collaborators of the
Python code (the `requests` library, PIL image decoding, base64 decoding,
and the CLIP model) are modelled as an environment record of
`Except`-returning oracles, parametrised by an abstract type `Img` of
decoded in-memory images.  The two Flask handlers become total Lean
functions from a request value to an HTTP-result value; the `try/except`
boundary of each handler is the `Except` monad, materialised by
`embedTry`/`compareTry` and the outer wrappers `embed_image`/
`compare_images`.

Embedding vectors are modelled as lists of rationals (the exact content
of the float vectors), and the cosine-similarity line
`np.dot(emb1, emb2) / (np.linalg.norm(emb1) * np.linalg.norm(emb2))`
is modelled over the reals with `Real.sqrt` for the Euclidean norm.
-/

/-- An HTTP response as seen by `requests.get`: a status code and a body
(the `content` bytes). -/
structure HttpResponse where
  status_code : Nat
  content : List Nat
deriving DecidableEq, Repr

/-- The environment of external effects used by the service:
`fetch` is `requests.get` (an `Except.error` is a raised network or
timeout exception), `imageOpen` is `PIL.Image.open` over a byte string,
`b64decode` is `base64.b64decode`, and `encode` is `model.encode`
returning the embedding vector. -/
structure Env (Img : Type) where
  fetch : String → Except String HttpResponse
  imageOpen : List Nat → Except String Img
  b64decode : String → Except String (List Nat)
  encode : Img → List ℚ

/-- `get_image_from_url`: fetch the URL and open the response body as an
image.  The status code of the response is never inspected, exactly as in
the source. -/
def get_image_from_url {Img : Type} (env : Env Img) (url : String) : Except String Img := do
  let response ← env.fetch url
  env.imageOpen response.content

/-- `get_image_from_base64`: decode the base64 text and open the bytes as
an image. -/
def get_image_from_base64 {Img : Type} (env : Env Img) (s : String) : Except String Img := do
  let image_data ← env.b64decode s
  env.imageOpen image_data

/-- Body of a POST `/embed` request: each field is present or absent. -/
structure EmbedRequest where
  image : Option String
  imageUrl : Option String
deriving DecidableEq, Repr

/-- Result of the `/embed` handler: a 200 payload, a 400 validation
error, or a 500 error carrying the exception message. -/
inductive EmbedResult where
  | ok (embedding : List ℚ) (dimension : Nat)
  | badRequest (msg : String)
  | serverError (msg : String)
deriving DecidableEq, Repr

/-- HTTP status of an `/embed` response. -/
def EmbedResult.status : EmbedResult → Nat
  | .ok _ _ => 200
  | .badRequest _ => 400
  | .serverError _ => 500

/-- The `try:` block of the `embed_image` handler.  `Except.error`
is an uncaught Python exception travelling to the `except` clause. -/
def embedTry {Img : Type} (env : Env Img) (data : EmbedRequest) : Except String EmbedResult :=
  match data.image with
  | some s => do
      let image ← get_image_from_base64 env s
      let embedding_list := env.encode image
      pure (EmbedResult.ok embedding_list embedding_list.length)
  | none =>
    match data.imageUrl with
    | some u => do
        let image ← get_image_from_url env u
        let embedding_list := env.encode image
        pure (EmbedResult.ok embedding_list embedding_list.length)
    | none => pure (EmbedResult.badRequest "No image provided")

/-- The `embed_image` handler: the `try` body with the
`except Exception as e: return jsonify error, 500` boundary. -/
def embed_image {Img : Type} (env : Env Img) (data : EmbedRequest) : EmbedResult :=
  match embedTry env data with
  | .ok r => r
  | .error e => EmbedResult.serverError e

/-- One image reference inside a `/compare` body: an object that may
carry a `base64` key and may carry a `url` key. -/
structure ImageRef where
  base64 : Option String
  url : Option String
deriving DecidableEq, Repr

/-- Body of a POST `/compare` request. -/
structure CompareRequest where
  image1 : Option ImageRef
  image2 : Option ImageRef
deriving DecidableEq, Repr

/-- Resolution of one image reference in `compare_images`:
`if 'base64' in ref: get_image_from_base64(ref['base64'])
 else: get_image_from_url(ref['url'])`.
When neither key is present, the subscript `ref['url']` raises
`KeyError('url')`, whose `str` is `'url'` (with the quotes). -/
def resolveRef {Img : Type} (env : Env Img) (r : ImageRef) : Except String Img :=
  match r.base64 with
  | some s => get_image_from_base64 env s
  | none =>
    match r.url with
    | some u => get_image_from_url env u
    | none => Except.error "\x27url\x27"

/-- `np.dot` on two equal-length vectors (on ragged input the model
truncates to the shorter list; the source never reaches that case). -/
def dot : List ℚ → List ℚ → ℚ
  | x :: xs, y :: ys => x * y + dot xs ys
  | _, _ => 0

/-- `np.linalg.norm`: the Euclidean norm of a vector. -/
noncomputable def vnorm (v : List ℚ) : ℝ :=
  Real.sqrt ((dot v v : ℚ) : ℝ)

/-- The similarity line of `compare_images`:
`np.dot(emb1, emb2) / (np.linalg.norm(emb1) * np.linalg.norm(emb2))`. -/
noncomputable def cosineSim (a b : List ℚ) : ℝ :=
  ((dot a b : ℚ) : ℝ) / (vnorm a * vnorm b)

/-- Python `round(x, 2)`: round to two decimal places. -/
noncomputable def round2 (x : ℝ) : ℝ :=
  ((round (x * 100) : ℤ) : ℝ) / 100

/-- Result of the `/compare` handler. -/
inductive CompareResult where
  | ok (similarity : ℝ) (percentage : ℝ)
  | badRequest (msg : String)
  | serverError (msg : String)

/-- HTTP status of a `/compare` response. -/
def CompareResult.status : CompareResult → Nat
  | .ok _ _ => 200
  | .badRequest _ => 400
  | .serverError _ => 500

/-- The `try:` block of the `compare_images` handler. -/
noncomputable def compareTry {Img : Type} (env : Env Img) (data : CompareRequest) :
    Except String CompareResult :=
  match data.image1, data.image2 with
  | some r1, some r2 => do
      let img1 ← resolveRef env r1
      let img2 ← resolveRef env r2
      let emb1 := env.encode img1
      let emb2 := env.encode img2
      let similarity := cosineSim emb1 emb2
      pure (CompareResult.ok similarity (round2 (similarity * 100)))
  | _, _ => pure (CompareResult.badRequest "Both images required")

/-- The `compare_images` handler with its `except` boundary. -/
noncomputable def compare_images {Img : Type} (env : Env Img) (data : CompareRequest) :
    CompareResult :=
  match compareTry env data with
  | .ok r => r
  | .error e => CompareResult.serverError e

/-- A benign concrete environment: every fetch yields a 200 response,
every byte string opens as image `0`, every base64 text decodes, and
every image embeds to the vector `[1]`. -/
def envW : Env Nat :=
  ⟨fun _ => Except.ok ⟨200, [0]⟩, fun _ => Except.ok 0,
   fun _ => Except.ok [0], fun _ => [1]⟩

/-- A concrete environment whose server answers every fetch with
HTTP status 404, yet with a body that decodes to a valid image. -/
def env404 : Env Nat :=
  ⟨fun _ => Except.ok ⟨404, [9]⟩,
   fun bs => if bs = [9] then Except.ok 5 else Except.error "cannot identify image file",
   fun _ => Except.error "Invalid base64-encoded string",
   fun _ => [2]⟩

/-- A concrete environment whose network is down (every fetch raises),
while the base64 text "QQ" decodes to bytes that open as image `3`. -/
def envBoth : Env Nat :=
  ⟨fun _ => Except.error "network down",
   fun bs => if bs = [1] then Except.ok 3 else Except.error "cannot identify image file",
   fun s => if s = "QQ" then Except.ok [1] else Except.error "Invalid base64",
   fun _ => [5]⟩

/-- A concrete environment in which every external operation raises;
base64 decoding raises with the same message as a `KeyError` on
`url`, so one message exercises both handlers. -/
def envErr : Env Nat :=
  ⟨fun _ => Except.error "boom", fun _ => Except.error "boom",
   fun _ => Except.error "\x27url\x27", fun _ => []⟩

/-! ### Shared lemmas about the dot product and the norm -/

theorem dot_comm (a b : List ℚ) : dot a b = dot b a := by
  induction a generalizing b with
  | nil => cases b <;> rfl
  | cons x xs ih =>
    cases b with
    | nil => rfl
    | cons y ys => simp only [dot]; rw [ih, mul_comm]

theorem dot_self_nonneg (v : List ℚ) : 0 ≤ dot v v := by
  induction v with
  | nil => simp [dot]
  | cons x xs ih => simp only [dot]; nlinarith [mul_self_nonneg x]

/-- Cauchy-Schwarz for the list dot product. -/
theorem dot_sq_le (a b : List ℚ) : dot a b ^ 2 ≤ dot a a * dot b b := by
  induction a generalizing b with
  | nil => cases b <;> simp [dot]
  | cons x xs ih =>
    cases b with
    | nil => simp [dot, mul_nonneg (dot_self_nonneg (x :: xs)) (le_refl 0)]
    | cons y ys =>
      have h := ih ys
      have hA := dot_self_nonneg xs
      have hB := dot_self_nonneg ys
      simp only [dot]
      rcases eq_or_lt_of_le hB with hB0 | hBpos
      · have hd : dot xs ys = 0 := by
          have h2 : dot xs ys ^ 2 ≤ 0 := by rw [← hB0] at h; simpa using h
          have h3 : dot xs ys ^ 2 = 0 := le_antisymm h2 (sq_nonneg _)
          exact pow_eq_zero_iff (two_ne_zero) |>.mp h3
        rw [hd, ← hB0]
        nlinarith [mul_nonneg hA (sq_nonneg y)]
      · nlinarith [sq_nonneg (x * dot ys ys - y * dot xs ys),
          mul_nonneg (sub_nonneg.mpr h) (add_nonneg (sq_nonneg y) hB), hBpos]

/-- A vector whose Euclidean norm is nonzero has positive squared norm. -/
theorem vnorm_pos_of_ne (a : List ℚ) (ha : vnorm a ≠ 0) :
    (0 : ℝ) < ((dot a a : ℚ) : ℝ) := by
  by_contra hle
  exact ha (Real.sqrt_eq_zero'.mpr (le_of_not_lt hle))

/-! ### Claim theorems -/

/-- Claim C5: for every embed request whose body contains neither an
`image` field nor an `imageUrl` field, the handler returns HTTP status
400 with error message exactly "No image provided", in every
environment. -/
theorem embed_missing_both_fields_400 {Img : Type} (env : Env Img) :
    embed_image env ⟨none, none⟩ = EmbedResult.badRequest "No image provided" ∧
    (embed_image env ⟨none, none⟩).status = 400 :=
  ⟨rfl, rfl⟩

/-- Closed instance of `embed_missing_both_fields_400` at a concrete
environment. -/
theorem embed_missing_both_fields_400_w :
    embed_image envW ⟨none, none⟩ = EmbedResult.badRequest "No image provided" ∧
    (embed_image envW ⟨none, none⟩).status = 400 :=
  embed_missing_both_fields_400 envW

/-- Claim C6: for every compare request whose body is missing `image1`
or `image2`, the handler returns HTTP status 400 with error message
exactly "Both images required"; the result is the same in every
environment, so no image is resolved or embedded first. -/
theorem compare_missing_field_400 {Img : Type} (env : Env Img) (data : CompareRequest)
    (h : data.image1 = none ∨ data.image2 = none) :
    compare_images env data = CompareResult.badRequest "Both images required" ∧
    (compare_images env data).status = 400 := by
  obtain ⟨i1, i2⟩ := data
  rcases h with h | h
  · simp only at h
    subst h
    cases i2 <;> exact ⟨rfl, rfl⟩
  · simp only at h
    subst h
    cases i1 <;> exact ⟨rfl, rfl⟩

/-- Witness for `compare_missing_field_400`: a request with `image2`
present but `image1` absent is rejected with the 400 message. -/
theorem compare_missing_field_400_w :
    (none = (none : Option ImageRef) ∨ some ⟨some "a", none⟩ = (none : Option ImageRef)) ∧
    compare_images envW ⟨none, some ⟨some "a", none⟩⟩ =
      CompareResult.badRequest "Both images required" ∧
    (compare_images envW ⟨none, some ⟨some "a", none⟩⟩).status = 400 :=
  ⟨Or.inl rfl, compare_missing_field_400 envW ⟨none, some ⟨some "a", none⟩⟩ (Or.inl rfl)⟩

/-- Claim C10: a compare reference object — in the `image1` or the
`image2` position — carrying neither a `base64` key nor a `url` key is
not caught by the 400 validation; the `url` subscript raises
`KeyError`, surfacing as a 500 whose message is the `KeyError` text
(for `image2` this is stated with `image1` resolving successfully, so
the failure is image2's). And for each of the two references, when a
`base64` key is present it is used and a `url` key in the same
reference is ignored. -/
theorem compare_ref_without_keys_500 {Img : Type} (env : Env Img)
    (r1 r2 : ImageRef) (i1 : Img) (s u : String)
    (h1 : resolveRef env r1 = Except.ok i1) :
    (compare_images env ⟨some ⟨none, none⟩, some r2⟩ =
        CompareResult.serverError "\x27url\x27" ∧
      (compare_images env ⟨some ⟨none, none⟩, some r2⟩).status = 500) ∧
    (compare_images env ⟨some r1, some ⟨none, none⟩⟩ =
        CompareResult.serverError "\x27url\x27" ∧
      (compare_images env ⟨some r1, some ⟨none, none⟩⟩).status = 500) ∧
    compare_images env ⟨some ⟨some s, some u⟩, some r2⟩ =
      compare_images env ⟨some ⟨some s, none⟩, some r2⟩ ∧
    compare_images env ⟨some r1, some ⟨some s, some u⟩⟩ =
      compare_images env ⟨some r1, some ⟨some s, none⟩⟩ := by
  refine ⟨⟨rfl, rfl⟩, ⟨?_, ?_⟩, rfl, rfl⟩
  · simp only [compare_images, compareTry, h1]
    rfl
  · simp only [compare_images, compareTry, h1]
    rfl

/-- Witness for `compare_ref_without_keys_500` at a concrete
environment, with `image1` resolving to image `0` in the image2-side
conjuncts. -/
theorem compare_ref_without_keys_500_w :
    resolveRef envW ⟨some "a", none⟩ = Except.ok 0 ∧
    ((compare_images envW ⟨some ⟨none, none⟩, some ⟨none, none⟩⟩ =
        CompareResult.serverError "\x27url\x27" ∧
      (compare_images envW ⟨some ⟨none, none⟩, some ⟨none, none⟩⟩).status = 500) ∧
    (compare_images envW ⟨some ⟨some "a", none⟩, some ⟨none, none⟩⟩ =
        CompareResult.serverError "\x27url\x27" ∧
      (compare_images envW ⟨some ⟨some "a", none⟩, some ⟨none, none⟩⟩).status = 500) ∧
    compare_images envW ⟨some ⟨some "a", some "u"⟩, some ⟨none, none⟩⟩ =
      compare_images envW ⟨some ⟨some "a", none⟩, some ⟨none, none⟩⟩ ∧
    compare_images envW ⟨some ⟨some "a", none⟩, some ⟨some "a", some "u"⟩⟩ =
      compare_images envW ⟨some ⟨some "a", none⟩, some ⟨some "a", none⟩⟩) :=
  ⟨rfl, compare_ref_without_keys_500 envW ⟨some "a", none⟩ ⟨none, none⟩ 0 "a" "u" rfl⟩

/-- Claim C9: every exception escaping a handler's `try` body is
converted at the handler boundary into a 500 response whose error field
is the exception's message, and each handler always produces one of the
three HTTP results (200, 400 or 500) — never an unhandled fault. -/
theorem handlers_convert_exceptions_to_500 {Img : Type} (env : Env Img)
    (d1 : EmbedRequest) (d2 : CompareRequest) (e : String) :
    (embedTry env d1 = Except.error e →
      embed_image env d1 = EmbedResult.serverError e ∧ (embed_image env d1).status = 500) ∧
    (compareTry env d2 = Except.error e →
      compare_images env d2 = CompareResult.serverError e ∧
      (compare_images env d2).status = 500) ∧
    ((embed_image env d1).status = 200 ∨ (embed_image env d1).status = 400 ∨
      (embed_image env d1).status = 500) ∧
    ((compare_images env d2).status = 200 ∨ (compare_images env d2).status = 400 ∨
      (compare_images env d2).status = 500) := by
  refine ⟨?_, ?_, ?_, ?_⟩
  · intro h
    simp [embed_image, h, EmbedResult.status]
  · intro h
    simp [compare_images, h, CompareResult.status]
  · rcases hE : embedTry env d1 with e1 | r
    · simp [embed_image, hE, EmbedResult.status]
    · cases r <;> simp [embed_image, hE, EmbedResult.status]
  · rcases hC : compareTry env d2 with e2 | r
    · simp [compare_images, hC, CompareResult.status]
    · cases r <;> simp [compare_images, hC, CompareResult.status]

/-- Witness for `handlers_convert_exceptions_to_500`: in `envErr` the
embed `try` body raises during base64 decoding, and the compare `try`
body raises a `KeyError` on `url`; both handlers answer 500 with the
raised message. -/
theorem handlers_convert_exceptions_to_500_w :
    embedTry envErr ⟨some "x", none⟩ = Except.error "\x27url\x27" ∧
    embed_image envErr ⟨some "x", none⟩ = EmbedResult.serverError "\x27url\x27" ∧
    compareTry envErr ⟨some ⟨none, none⟩, some ⟨none, none⟩⟩ = Except.error "\x27url\x27" ∧
    compare_images envErr ⟨some ⟨none, none⟩, some ⟨none, none⟩⟩ =
      CompareResult.serverError "\x27url\x27" := by
  have h := handlers_convert_exceptions_to_500 envErr ⟨some "x", none⟩
    ⟨some ⟨none, none⟩, some ⟨none, none⟩⟩ "\x27url\x27"
  exact ⟨rfl, (h.1 rfl).1, rfl, (h.2.1 rfl).1⟩

/-- Claim C2 counterexample: in `env404` the fetch of the URL returns
HTTP status 404, yet the embed request succeeds with a 200 payload —
the body of the non-2xx response is decoded and treated as a valid
image, so a non-2xx response does not cause the request to fail. -/
theorem non2xx_body_accepted_as_image :
    env404.fetch "http://h/a" = Except.ok ⟨404, [9]⟩ ∧
    embed_image env404 ⟨none, some "http://h/a"⟩ = EmbedResult.ok [2] 1 ∧
    (embed_image env404 ⟨none, some "http://h/a"⟩).status = 200 :=
  ⟨rfl, rfl, rfl⟩

/-- Claim C2 (amended): `get_image_from_url` never inspects the status
code of the fetched response; whenever the response body decodes as an
image, the image is used — even for a non-2xx status — and the embed
request succeeds with it. A remote fetch therefore fails only through
a raised network error or an undecodable body, not through the HTTP
status. -/
theorem get_image_from_url_ignores_status {Img : Type} (env : Env Img) (u : String)
    (r : HttpResponse) (img : Img)
    (hs : ¬(200 ≤ r.status_code ∧ r.status_code < 300))
    (hf : env.fetch u = Except.ok r)
    (hd : env.imageOpen r.content = Except.ok img) :
    get_image_from_url env u = Except.ok img ∧
    embed_image env ⟨none, some u⟩ =
      EmbedResult.ok (env.encode img) (env.encode img).length := by
  have h1 : get_image_from_url env u = Except.ok img := by
    simp only [get_image_from_url, hf]
    exact hd
  refine ⟨h1, ?_⟩
  simp [embed_image, embedTry, h1]

/-- Witness for `get_image_from_url_ignores_status` at the concrete
404-answering environment. -/
theorem get_image_from_url_ignores_status_w :
    ¬(200 ≤ (404 : Nat) ∧ (404 : Nat) < 300) ∧
    env404.fetch "http://h/a" = Except.ok ⟨404, [9]⟩ ∧
    env404.imageOpen [9] = Except.ok 5 ∧
    get_image_from_url env404 "http://h/a" = Except.ok 5 ∧
    embed_image env404 ⟨none, some "http://h/a"⟩ =
      EmbedResult.ok (env404.encode 5) (env404.encode 5).length :=
  ⟨by decide, rfl, rfl,
    get_image_from_url_ignores_status env404 "http://h/a" ⟨404, [9]⟩ 5
      (by decide) rfl rfl⟩

/-- Claim C3 counterexample: a request carrying both an inline base64
image and a remote URL is accepted with a 200 response; the URL is
silently ignored — in `envBoth` every fetch raises, so the embedding
can only have come from the base64 field. -/
theorem embed_both_fields_silently_accepted :
    embed_image envBoth ⟨some "QQ", some "http://h/b"⟩ = EmbedResult.ok [5] 1 ∧
    envBoth.fetch "http://h/b" = Except.error "network down" :=
  ⟨rfl, rfl⟩

/-- Claim C3 (amended): an embed request supplying both fields at once
is accepted; the handler uses the inline base64 image and the
`imageUrl` field has no effect on the result. -/
theorem embed_with_both_fields_uses_base64 {Img : Type} (env : Env Img)
    (s u : String) (img : Img)
    (h : get_image_from_base64 env s = Except.ok img) :
    embed_image env ⟨some s, some u⟩ =
      EmbedResult.ok (env.encode img) (env.encode img).length ∧
    embed_image env ⟨some s, some u⟩ = embed_image env ⟨some s, none⟩ := by
  constructor
  · simp [embed_image, embedTry, h]
  · rfl

/-- Witness for `embed_with_both_fields_uses_base64` at the concrete
network-down environment. -/
theorem embed_with_both_fields_uses_base64_w :
    get_image_from_base64 envBoth "QQ" = Except.ok 3 ∧
    embed_image envBoth ⟨some "QQ", some "http://h/b"⟩ =
      EmbedResult.ok (envBoth.encode 3) (envBoth.encode 3).length ∧
    embed_image envBoth ⟨some "QQ", some "http://h/b"⟩ =
      embed_image envBoth ⟨some "QQ", none⟩ := by
  have h := embed_with_both_fields_uses_base64 envBoth "QQ" "http://h/b" 3 rfl
  exact ⟨rfl, h.1, h.2⟩

/-- Claim C4: on the success path, compare returns similarity equal to
`dot(a, b) / (‖a‖ * ‖b‖)` of the two embedding vectors and percentage
equal to similarity times 100 rounded to two decimal places. -/
theorem compare_success_similarity_formula {Img : Type} (env : Env Img)
    (r1 r2 : ImageRef) (i1 i2 : Img)
    (h1 : resolveRef env r1 = Except.ok i1)
    (h2 : resolveRef env r2 = Except.ok i2) :
    compare_images env ⟨some r1, some r2⟩ =
      CompareResult.ok
        (((dot (env.encode i1) (env.encode i2) : ℚ) : ℝ) /
          (vnorm (env.encode i1) * vnorm (env.encode i2)))
        (round2 ((((dot (env.encode i1) (env.encode i2) : ℚ) : ℝ) /
          (vnorm (env.encode i1) * vnorm (env.encode i2))) * 100)) := by
  simp only [compare_images, compareTry, h1, h2, cosineSim]
  rfl

/-- Witness for `compare_success_similarity_formula` at the benign
environment, comparing an image with itself. -/
theorem compare_success_similarity_formula_w :
    resolveRef envW ⟨some "a", none⟩ = Except.ok 0 ∧
    compare_images envW ⟨some ⟨some "a", none⟩, some ⟨some "a", none⟩⟩ =
      CompareResult.ok
        (((dot (envW.encode 0) (envW.encode 0) : ℚ) : ℝ) /
          (vnorm (envW.encode 0) * vnorm (envW.encode 0)))
        (round2 ((((dot (envW.encode 0) (envW.encode 0) : ℚ) : ℝ) /
          (vnorm (envW.encode 0) * vnorm (envW.encode 0))) * 100)) :=
  ⟨rfl, compare_success_similarity_formula envW ⟨some "a", none⟩ ⟨some "a", none⟩ 0 0 rfl rfl⟩

/-- Claim C7: the cosine similarity computed by compare is symmetric in
its two embedding vectors (stated, as in the claim, for vectors of
equal dimensionality and nonzero norm). -/
theorem compare_similarity_symmetric (a b : List ℚ) (hlen : a.length = b.length)
    (ha : vnorm a ≠ 0) (hb : vnorm b ≠ 0) : cosineSim a b = cosineSim b a := by
  unfold cosineSim
  rw [dot_comm, mul_comm]

/-- Witness for `compare_similarity_symmetric` on the orthogonal pair
`[1, 0]`, `[0, 1]`. -/
theorem compare_similarity_symmetric_w :
    ([1, 0] : List ℚ).length = ([0, 1] : List ℚ).length ∧
    vnorm [1, 0] ≠ 0 ∧ vnorm [0, 1] ≠ 0 ∧
    cosineSim [1, 0] [0, 1] = cosineSim [0, 1] [1, 0] := by
  have h1 : vnorm [1, 0] ≠ 0 := by
    have hd : dot [1, 0] [1, 0] = 1 := by norm_num [dot]
    simp [vnorm, hd]
  have h2 : vnorm [0, 1] ≠ 0 := by
    have hd : dot [0, 1] [0, 1] = 1 := by norm_num [dot]
    simp [vnorm, hd]
  exact ⟨rfl, h1, h2, compare_similarity_symmetric [1, 0] [0, 1] rfl h1 h2⟩

/-- Claim C8: for every pair of embedding vectors of equal
dimensionality and nonzero norm, the similarity computed by compare
lies in the interval from -1 to 1. -/
theorem compare_similarity_bounded (a b : List ℚ) (hlen : a.length = b.length)
    (ha : vnorm a ≠ 0) (hb : vnorm b ≠ 0) :
    -1 ≤ cosineSim a b ∧ cosineSim a b ≤ 1 := by
  have hA : (0 : ℝ) < ((dot a a : ℚ) : ℝ) := vnorm_pos_of_ne a ha
  have hB : (0 : ℝ) < ((dot b b : ℚ) : ℝ) := vnorm_pos_of_ne b hb
  have hCS : (((dot a b : ℚ) : ℝ)) ^ 2 ≤ ((dot a a : ℚ) : ℝ) * ((dot b b : ℚ) : ℝ) := by
    exact_mod_cast dot_sq_le a b
  have hden : (0 : ℝ) < vnorm a * vnorm b := by
    unfold vnorm
    exact mul_pos (Real.sqrt_pos.mpr hA) (Real.sqrt_pos.mpr hB)
  have habs : |cosineSim a b| ≤ 1 := by
    unfold cosineSim
    rw [abs_div, abs_of_pos hden, div_le_one hden]
    have h1 : |((dot a b : ℚ) : ℝ)| = Real.sqrt ((((dot a b : ℚ) : ℝ)) ^ 2) :=
      (Real.sqrt_sq_eq_abs _).symm
    rw [h1]
    unfold vnorm
    rw [← Real.sqrt_mul hA.le]
    exact Real.sqrt_le_sqrt hCS
  exact abs_le.mp habs

/-- Witness for `compare_similarity_bounded` on the pair `[1]`, `[1]`. -/
theorem compare_similarity_bounded_w :
    ([1] : List ℚ).length = ([1] : List ℚ).length ∧
    vnorm [1] ≠ 0 ∧
    (-1 ≤ cosineSim [1] [1] ∧ cosineSim [1] [1] ≤ 1) := by
  have h1 : vnorm [1] ≠ 0 := by
    have hd : dot [1] [1] = 1 := by norm_num [dot]
    simp [vnorm, hd]
  exact ⟨rfl, h1, compare_similarity_bounded [1] [1] rfl h1 h1⟩
